import Mathlib

/-!
Verification development for the chronytime package: a TrueTime-style
interval clock built on the chrony daemon's control-and-monitoring
protocol.  The repository contains three historical snapshots of the
implementation; definitions below are translated from the Go source and
carry a comment naming the function and lines they embed.

Numeric embedding notes.  The Go code computes the compact-float decode
in float64 as `float64(coef) * math.Pow(2.0, float64(exp))` with
`|coef| < 2^25` and `exp ∈ [-89, 38]`; both factors and their product
are exactly representable in IEEE-754 binary64 (multiplication by a
power of two in range only shifts the exponent), so the rational-number
model below is exact for the decode.  Durations are modelled in whole
nanoseconds as `Int`, matching Go's `time.Duration`; the float-to-int
conversions in the source truncate toward zero, modelled by `truncQ`.
At the captured daemon reply used in the concrete theorems below, the
float64 sums and products in the two uncertainty functions are likewise
exact (all intermediate values need at most 47 significand bits), so
the rational model agrees bit-for-bit with the Go computation there.
-/

set_option maxRecDepth 40000

/-- Truncation toward zero of a rational to an integer: the semantics of
Go's float64-to-int64 conversion used in `time.Duration(x)`. -/
def truncQ (q : ℚ) : Int :=
  if 0 ≤ q then ⌊q⌋ else ⌈q⌉

/-- The 32-bit compact-float container (`cfloat` in chronytime.go lines
69-71): a 7-bit signed exponent over a 25-bit signed coefficient. -/
structure cfloat where
  F : Int
deriving DecidableEq

/-- Decode of a compact float, translated from `(*cfloat).value`
(chronytime.go lines 78-93; identical at lines 406-421 and at
part_000 lines 240-255): reinterpret the word as a uint32, extract the
top 7 bits, subtract `1 << 7` when they reach `1 << 6` (two's
complement), subtract the 25-bit coefficient width, extract the low 25
bits, subtract `1 << 25` when they reach `1 << 24`, and return
coefficient times 2^exponent. -/
def cfloat.value (f : cfloat) : ℚ :=
  let x : Int := f.F.emod (2 ^ 32)
  let exp0 : Int := x / 2 ^ 25
  let exp1 : Int := if 2 ^ 6 ≤ exp0 then exp0 - 2 ^ 7 else exp0
  let exp : Int := exp1 - 25
  let coef0 : Int := x % 2 ^ 25
  let coef : Int := if 2 ^ 24 ≤ coef0 then coef0 - 2 ^ 25 else coef0
  (coef : ℚ) * (2 : ℚ) ^ exp

/-- Two's-complement sign extension of a `w`-bit field, as the spec
describes it: values at or above `2^(w-1)` represent negatives. -/
def signExtend (w : Nat) (x : Int) : Int :=
  if 2 ^ (w - 1) ≤ x then x - 2 ^ w else x

/-- The spec's formula for compact-float decode, written from the claim:
(sign-extended low 25 bits) times 2 to the ((sign-extended top 7 bits)
minus 25). -/
def compactFloatSpec (word : Int) : ℚ :=
  let bits : Int := word.emod (2 ^ 32)
  ((signExtend 25 (bits % 2 ^ 25) : Int) : ℚ) *
    (2 : ℚ) ^ (signExtend 7 (bits / 2 ^ 25) - 25)

/-- The protocol's second/nanosecond reference-time record (`timeSpec`,
chronytime.go lines 43-47). -/
structure timeSpec where
  SecHigh : Nat
  SecLow : Nat
  Nsec : Nat
deriving DecidableEq

/-- Peer address record (`ipAddr`, chronytime.go lines 60-64): 16 address
bytes, a family tag and padding. -/
structure ipAddr where
  Addr : List Nat
  Family : Nat
  Padding : Nat
deriving DecidableEq

/-- Decoded tracking payload (`trackingResponse`, chronytime.go lines
112-131; the v2 snapshot at lines 440-456 appends an `EOR` word, kept
separately in the decoder below). -/
structure trackingResponse where
  RefID : Nat
  Addr : ipAddr
  Stratum : Nat
  LeapStatus : Nat
  RefTime : timeSpec
  CurrentCorrection : cfloat
  LastOffset : cfloat
  RmsOffset : cfloat
  FreqPPM : cfloat
  ResidFreqPPM : cfloat
  SkewPPM : cfloat
  RootDelay : cfloat
  RootDispersion : cfloat
  LastUpdateInterval : cfloat
deriving DecidableEq

/-- The uncertainty derivation of the first snapshot (`uncertainty`,
chronytime.go lines 133-140, repeated at lines 458-465): seconds value
`math.Abs(correction) + rootDispersion + 0.5*rootDelay`, converted by
`time.Duration(s) * time.Second`, i.e. truncated to whole seconds and
then scaled to nanoseconds.  Result in nanoseconds. -/
def uncertainty (r : trackingResponse) : Int :=
  let correction : ℚ := r.CurrentCorrection.value
  let absCorrection : ℚ := if correction < 0 then -correction else correction
  let s : ℚ := absCorrection + r.RootDispersion.value + (1 / 2) * r.RootDelay.value
  truncQ s * 1000000000

/-- The uncertainty derivation of the context-based snapshot
(`uncertaintyFromCorrectedTime`, part_000 lines 295-302): seconds value
`rootDispersion + 0.5*rootDelay` (the correction term is excluded),
scaled by `math.Pow(10, 9)` and truncated by `time.Duration(ns)`. -/
def uncertaintyFromCorrectedTime (r : trackingResponse) : Int :=
  let s : ℚ := r.RootDispersion.value + (1 / 2) * r.RootDelay.value
  truncQ (s * 1000000000)

/-- The claim's epsilon formula, written from the spec's words: the exact
number of nanoseconds in `rootDispersion + 0.5 * rootDelay` computed from
the decoded values. -/
def claimEpsNs (r : trackingResponse) : ℚ :=
  (r.RootDispersion.value + (1 / 2) * r.RootDelay.value) * 1000000000

/-- The captured daemon reply used by the repository's tests (part_000
lines 75-106 and the pkg test file lines 83-113). -/
def testTracking : trackingResponse :=
  { RefID := 3463184516
    Addr := { Addr := [206, 108, 0, 132] ++ List.replicate 12 0, Family := 1, Padding := 0 }
    Stratum := 2
    LeapStatus := 0
    RefTime := { SecHigh := 0, SecLow := 1588114879, Nsec := 479787460 }
    CurrentCorrection := ⟨-320148152⟩
    LastOffset := ⟨-349885382⟩
    RmsOffset := ⟨-356455327⟩
    FreqPPM := ⟨182955620⟩
    ResidFreqPPM := ⟨-213802485⟩
    SkewPPM := ⟨-87438093⟩
    RootDelay := ⟨-154422419⟩
    RootDispersion := ⟨-254273351⟩
    LastUpdateInterval := ⟨411118241⟩ }

/-- Exact decode of the captured current-correction word. -/
theorem value_currentCorrection : cfloat.value ⟨-320148152⟩ = 15396168 / 2 ^ 35 := by
  norm_num [cfloat.value]

/-- Exact decode of the captured root-delay word. -/
theorem value_rootDelay : cfloat.value ⟨-154422419⟩ = 13349741 / 2 ^ 30 := by
  norm_num [cfloat.value]

/-- Exact decode of the captured root-dispersion word. -/
theorem value_rootDispersion : cfloat.value ⟨-254273351⟩ = 14162105 / 2 ^ 33 := by
  norm_num [cfloat.value]

/-- Exact decode of the captured frequency word. -/
theorem value_freqPPM : cfloat.value ⟨182955620⟩ = 15183460 / 2 ^ 20 := by
  norm_num [cfloat.value]

/-- Exact decode of the captured last-update-interval word. -/
theorem value_lastUpdateInterval : cfloat.value ⟨411118241⟩ = 8465057 / 2 ^ 13 := by
  norm_num [cfloat.value]

/-- Big-endian encoding of a 16-bit value as two bytes, the byte layout
produced by `binary.Write` with `binary.BigEndian` for a uint16. -/
def be16 (x : Nat) : List Nat :=
  [x / 2 ^ 8 % 2 ^ 8, x % 2 ^ 8]

/-- Big-endian encoding of a 32-bit value as four bytes. -/
def be32 (x : Nat) : List Nat :=
  [x / 2 ^ 24 % 2 ^ 8, x / 2 ^ 16 % 2 ^ 8, x / 2 ^ 8 % 2 ^ 8, x % 2 ^ 8]

/-- The bytes `binary.Write(conn, networkOrder, r)` emits for the
`request` struct (chronytime.go lines 95-110 and 219-226; identical
layout at lines 423-438 and part_000 lines 257-272 and 388-394):
version 6, packet type 1, two reserved bytes, command 33, attempt 0,
the 32-bit sequence number, then the 8-byte, 93-byte and 396-byte
zero pads.  `encoding/binary` packs struct fields back to back with no
alignment padding. -/
def encodeRequest (sequence : Nat) : List Nat :=
  [6, 1, 0, 0] ++ be16 33 ++ be16 0 ++ be32 sequence ++
    List.replicate 8 0 ++ List.replicate 93 0 ++ List.replicate 396 0

/-- Big-endian read of `w` bytes starting at offset `i`. -/
def beAt (bs : List Nat) (i w : Nat) : Nat :=
  ((bs.drop i).take w).foldl (fun a b => a * 2 ^ 8 + b) 0

/-- Big-endian read of an int32 at offset `i`, two's complement. -/
def i32At (bs : List Nat) (i : Nat) : Int :=
  let u := beAt bs i 4
  if 2 ^ 31 ≤ u then (u : Int) - 2 ^ 32 else (u : Int)

/-- Full decoded reply (`response`, chronytime.go lines 142-159, 467-484
and part_000 lines 304-321): the fixed header followed by the tracking
payload. -/
structure response where
  Version : Nat
  PktType : Nat
  Res1 : Nat
  Res2 : Nat
  Command : Nat
  Reply : Nat
  Status : Nat
  Pad1 : Nat
  Pad2 : Nat
  Pad3 : Nat
  Sequence : Nat
  Pad4 : Nat
  Pad5 : Nat
  Tracking : trackingResponse
deriving DecidableEq

/-- Field-by-field big-endian extraction of a `response` from a byte
buffer, at the offsets `encoding/binary` uses for the declared struct
order (header bytes 0-27, tracking payload bytes 28-103). -/
def parseResponse (bs : List Nat) : response :=
  { Version := beAt bs 0 1
    PktType := beAt bs 1 1
    Res1 := beAt bs 2 1
    Res2 := beAt bs 3 1
    Command := beAt bs 4 2
    Reply := beAt bs 6 2
    Status := beAt bs 8 2
    Pad1 := beAt bs 10 2
    Pad2 := beAt bs 12 2
    Pad3 := beAt bs 14 2
    Sequence := beAt bs 16 4
    Pad4 := beAt bs 20 4
    Pad5 := beAt bs 24 4
    Tracking :=
      { RefID := beAt bs 28 4
        Addr := { Addr := (bs.drop 32).take 16, Family := beAt bs 48 2, Padding := beAt bs 50 2 }
        Stratum := beAt bs 52 2
        LeapStatus := beAt bs 54 2
        RefTime := { SecHigh := beAt bs 56 4, SecLow := beAt bs 60 4, Nsec := beAt bs 64 4 }
        CurrentCorrection := ⟨i32At bs 68⟩
        LastOffset := ⟨i32At bs 72⟩
        RmsOffset := ⟨i32At bs 76⟩
        FreqPPM := ⟨i32At bs 80⟩
        ResidFreqPPM := ⟨i32At bs 84⟩
        SkewPPM := ⟨i32At bs 88⟩
        RootDelay := ⟨i32At bs 92⟩
        RootDispersion := ⟨i32At bs 96⟩
        LastUpdateInterval := ⟨i32At bs 100⟩ } }

/-- Packed size of `response` without the `EOR` word: 28 header bytes
plus 76 tracking bytes (`binary.Size(response{})`, part_000 line 323). -/
def responseBinarySize : Nat := 104

/-- Packed size of the v2 `response`, whose `trackingResponse` carries
the trailing `EOR` int32 (chronytime.go line 455). -/
def responseBinarySizeEOR : Nat := 108

/-- Model of `binary.Read(bytes.NewReader(buffer), networkOrder, rep)`:
the read succeeds exactly when the buffer holds at least the packed
struct size, and then fills the fields in declared order. -/
def decodeResponse (bs : List Nat) (size : Nat) : Option response :=
  if size ≤ bs.length then some (parseResponse bs) else none

/-- The receive buffer: `make([]byte, 1024)` filled by `ReadFromUDP`
with the datagram's first `n` bytes, the rest remaining zero.  All
three snapshots hand this whole buffer, not `buffer[:n]`, to
`binary.Read`. -/
def padBuffer (data : List Nat) : List Nat :=
  data.take 1024 ++ List.replicate (1024 - data.length) 0

/-- An incoming datagram: source address (abstracted to a number, equal
iff `sameUDPAddr` holds) and payload bytes. -/
structure packet where
  src : Nat
  data : List Nat
deriving DecidableEq

/-- The distinct error exits of the `trackingRequest` variants, one per
`fmt.Errorf` site. -/
inductive trErr where
  | emptyRead
  | wrongAddr
  | wrongSeq
  | shortRead
  | decodeFail
deriving DecidableEq

/-- Receive path of the first snapshot's `trackingRequest`
(chronytime.go lines 230-255): one read with a 1-second deadline
(`none` models the deadline expiring with no datagram, in which case
`n == 0` and the `empty read` error fires first); a zero-length read is
an error, a datagram from the wrong source is an error, then the
zero-padded 1024-byte buffer is decoded and a sequence mismatch is an
error. -/
def trackingRequestV1 (peer seq : Nat) (read : Option packet) : Except trErr response :=
  match read with
  | none => .error .emptyRead
  | some p =>
    if p.data.length = 0 then .error .emptyRead
    else if p.src ≠ peer then .error .wrongAddr
    else
      match decodeResponse (padBuffer p.data) responseBinarySize with
      | none => .error .decodeFail
      | some rep => if rep.Sequence ≠ seq then .error .wrongSeq else .ok rep

/-- Receive path of the second snapshot's `trackingRequest`
(chronytime.go lines 562-582): a read loop that re-arms the 1-second
deadline, errors on a zero-length read, silently skips datagrams whose
source is not the peer, and decodes the first well-addressed datagram.
No sequence-number comparison is performed in this variant.  The input
list holds the datagrams that arrive before the deadline; an exhausted
list models the deadline read, which returns `n == 0` and so surfaces
as the `empty read` error. -/
def trackingRequestV2 (peer : Nat) : List packet → Except trErr response
  | [] => .error .emptyRead
  | p :: rest =>
    if p.data.length = 0 then .error .emptyRead
    else if p.src ≠ peer then trackingRequestV2 peer rest
    else
      match decodeResponse (padBuffer p.data) responseBinarySizeEOR with
      | none => .error .decodeFail
      | some rep => .ok rep

/-- Receive path of the context-based snapshot's `trackingRequest`
(part_000 lines 398-425): like the first snapshot but with the short
read check `n < responseBinarySize` between the empty-read and address
checks. -/
def trackingRequestV3 (peer seq : Nat) (read : Option packet) : Except trErr response :=
  match read with
  | none => .error .emptyRead
  | some p =>
    if p.data.length = 0 then .error .emptyRead
    else if p.data.length < responseBinarySize then .error .shortRead
    else if p.src ≠ peer then .error .wrongAddr
    else
      match decodeResponse (padBuffer p.data) responseBinarySize with
      | none => .error .decodeFail
      | some rep => if rep.Sequence ≠ seq then .error .wrongSeq else .ok rep

/-- One interval-clock reading, reduced to what the wait loop consults:
the (corrected) local timestamp captured for the iteration and the
derived non-negative-intended uncertainty, both in nanoseconds.
`earliest` is `Now.Add(-eps)` (chronytime.go line 272, part_000 lines
383-385). -/
structure reading where
  now : Int
  eps : Int
deriving DecidableEq

/-- The earliest instant consistent with a reading. -/
def reading.earliest (r : reading) : Int :=
  r.now - r.eps

/-- The retry loop of `WaitUntilAfter` (chronytime.go lines 264-279 and
590-607; part_000 lines 438-455 adds cancellation, modelled separately
below).  The input list supplies, per iteration, the outcome of the
fresh daemon query; the result pairs the loop's exit (none when the
supplied iterations ran out before the loop exited) with the iteration
trace: each consumed query outcome together with the sleep duration
`t.Sub(earliest)` taken after it, `none` when the loop exited at that
iteration instead of sleeping. -/
def waitUntilAfter (t : Int) :
    List (Except trErr reading) → Option (Except trErr Unit) × List (Except trErr reading × Option Int)
  | [] => (none, [])
  | q :: rest =>
    match q with
    | .error e => (some (.error e), [(q, none)])
    | .ok r =>
      if t < r.earliest then (some (.ok ()), [(q, none)])
      else
        let p := waitUntilAfter t rest
        (p.1, (q, some (t - r.earliest)) :: p.2)

/-- Outcome of the `select` between the retry timer and `ctx.Done()`
(part_000 lines 447-452). -/
inductive selectOutcome where
  | timer
  | cancel
deriving DecidableEq

/-- Errors `WaitUntilAfter` can return in the context-based snapshot:
an error propagated from the query path, or the distinct
`context.Canceled` value. -/
inductive wErr where
  | transport (e : trErr)
  | canceled
deriving DecidableEq

/-- The context-based `WaitUntilAfter` (part_000 lines 438-455): each
iteration issues a query; a query error is returned as such; a reading
with `Earliest()` after the target exits successfully; otherwise the
loop blocks in `select` on the retry timer versus `ctx.Done()`, and a
fired cancellation returns `context.Canceled` at once.  The result also
counts the queries issued. -/
def waitUntilAfterCtx (t : Int) :
    List (Except trErr reading × selectOutcome) → Option (Except wErr Unit) × Nat
  | [] => (none, 0)
  | (q, sel) :: rest =>
    match q with
    | .error e => (some (.error (.transport e)), 1)
    | .ok r =>
      if t < r.earliest then (some (.ok ()), 1)
      else
        match sel with
        | .cancel => (some (.error .canceled), 1)
        | .timer =>
          let p := waitUntilAfterCtx t rest
          (p.1, p.2 + 1)

/-- The sequential `ConsistentOperation` (chronytime.go lines 632-642).
Arguments are the outcomes of the injected calls: `prepareErr` the
error `pf()` returns, `now` the captured timestamp, `commitErr` the
error `cf(t)` returns, `waitErr` the error the internal
`WaitUntilAfter(t)` call returns — which line 640 discards.  The result
is the returned `(time.Time, error)` pair (zero timestamp modelled as
0) together with the pair (commit invoked, wait invoked). -/
def consistentOperation (prepareErr : Option Nat) (now : Int)
    (commitErr : Option Nat) (waitErr : Option Nat) :
    (Int × Option Nat) × (Bool × Bool) :=
  match prepareErr with
  | some e => ((0, some e), (false, false))
  | none =>
    match commitErr with
    | some e => ((0, some e), (true, false))
    | none =>
      match waitErr with
      | _ => ((now, none), (true, true))

/-- The first snapshot's `ConsistentOperation` (chronytime.go lines
304-319), which starts `WaitUntilAfter(t)` in a goroutine as soon as
`prepare` succeeds, runs `commit(t)`, returns the commit failure
without awaiting the goroutine, and on commit success awaits the
`finished` channel and returns `(t, nil)` regardless of the wait's
discarded error.  The flags are (commit invoked, wait invoked, wait
awaited). -/
def consistentOperationConc (prepareErr : Option Nat) (now : Int)
    (commitErr : Option Nat) (waitErr : Option Nat) :
    (Int × Option Nat) × (Bool × Bool × Bool) :=
  match prepareErr with
  | some e => ((0, some e), (false, false, false))
  | none =>
    match commitErr with
    | some e => ((0, some e), (true, true, false))
    | none =>
      match waitErr with
      | _ => ((now, none), (true, true, true))

/-- Claim C5: whenever prepare reports failure, both ConsistentOperation
implementations abort immediately: commit is never invoked (first flag
false), the prepare failure is returned, and the returned timestamp is
the zero value. -/
theorem C5_prepare_failure :
    ∀ (now : Int) (e : Nat) (c w : Option Nat),
      consistentOperation (some e) now c w = ((0, some e), (false, false)) ∧
      consistentOperationConc (some e) now c w = ((0, some e), (false, false, false)) := by
  intro now e c w
  exact ⟨rfl, rfl⟩

/-- Claim C4, counterexample: in the goroutine-based implementation
(chronytime.go lines 304-319), a successful prepare followed by a
failing commit still has WaitUntilAfter invoked (second flag true),
contradicting the claim that it is never invoked for that operation. -/
theorem C4_counterexample :
    consistentOperationConc none 5 (some 7) none = ((0, some 7), (true, true, false)) := by
  rfl

/-- Claim C4, amended: when prepare succeeds and commit fails, both
implementations return the zero timestamp with commit's failure; the
sequential implementation never invokes WaitUntilAfter for that
operation, while the goroutine-based implementation has already started
WaitUntilAfter but does not await its completion. -/
theorem C4_commit_failure :
    ∀ (now : Int) (e : Nat) (w : Option Nat),
      consistentOperation none now (some e) w = ((0, some e), (true, false)) ∧
      consistentOperationConc none now (some e) w = ((0, some e), (true, true, false)) := by
  intro now e w
  exact ⟨rfl, rfl⟩

/-- Claim C10: when prepare and commit both succeed, both
implementations return the captured timestamp with a nil error for
every possible outcome `w` of the awaited WaitUntilAfter call — the
wait's error value is discarded, so success is reported even when the
wait returned a transport or decode error. -/
theorem C10_wait_error_discarded :
    ∀ (now : Int) (w : Option Nat),
      consistentOperation none now none w = ((now, none), (true, true)) ∧
      consistentOperationConc none now none w = ((now, none), (true, true, true)) := by
  intro now w
  exact ⟨rfl, rfl⟩

/-- Claim C7, counterexample: the encoded tracking request is not 512
bytes long. -/
theorem C7_counterexample : (encodeRequest 0).length ≠ 512 := by
  decide

/-- Claim C7, amended: for every sequence-number value, encoding a
tracking request produces exactly 509 bytes — `encoding/binary` packs
the struct's declared fields (20 header bytes plus 8+93+396 padding
bytes) with none of the C alignment padding that would bring the chrony
wire struct to 512. -/
theorem C7_request_length :
    ∀ sequence : Nat, (encodeRequest sequence).length = 509 := by
  intro s
  simp [encodeRequest, be16, be32]

/-- The receive buffer always presents 1024 bytes to the decoder. -/
theorem padBuffer_length (d : List Nat) : (padBuffer d).length = 1024 := by
  simp only [padBuffer, List.length_append, List.length_take, List.length_replicate]
  omega

/-- Decoding from the zero-padded 1024-byte buffer always succeeds for
either packed response size. -/
theorem decode_padBuffer (d : List Nat) (size : Nat) (h : size ≤ 1024) :
    decodeResponse (padBuffer d) size = some (parseResponse (padBuffer d)) := by
  unfold decodeResponse
  rw [padBuffer_length, if_pos h]

/-- Claim C8, counterexample: in the first snapshot's receive path
(chronytime.go lines 230-248), a one-byte datagram — far shorter than
the 104-byte minimum decodable response — is not rejected: it is
silently decoded out of the zero-padded buffer and returned as a
success. -/
theorem C8_counterexample :
    (1 : Nat) < responseBinarySize ∧
    trackingRequestV1 0 0 (some ⟨0, [1]⟩) = .ok (parseResponse (padBuffer [1])) := by
  constructor
  · decide
  · rfl

/-- Claim C8, amended: a zero-length read (including the deadline
expiring with no datagram) is a hard `empty read` transport error in
every snapshot, and the context-based snapshot also rejects any
non-empty datagram shorter than the 104-byte minimum decodable response
size with a `short read` error; the first snapshot performs no such
length check and silently decodes short datagrams from its zero-padded
buffer. -/
theorem C8_read_errors :
    (∀ peer seq : Nat,
        trackingRequestV1 peer seq none = .error .emptyRead ∧
        trackingRequestV3 peer seq none = .error .emptyRead ∧
        trackingRequestV2 peer [] = .error .emptyRead) ∧
    (∀ (peer seq : Nat) (p : packet), p.data = [] →
        trackingRequestV1 peer seq (some p) = .error .emptyRead ∧
        trackingRequestV3 peer seq (some p) = .error .emptyRead) ∧
    (∀ (peer : Nat) (p : packet) (rest : List packet), p.data = [] →
        trackingRequestV2 peer (p :: rest) = .error .emptyRead) ∧
    (∀ (peer seq : Nat) (p : packet), p.data.length ≠ 0 →
        p.data.length < responseBinarySize →
        trackingRequestV3 peer seq (some p) = .error .shortRead) := by
  refine ⟨fun peer seq => ⟨rfl, rfl, rfl⟩, ?_, ?_, ?_⟩
  · intro peer seq p hp
    have hlen : p.data.length = 0 := by rw [hp]; rfl
    constructor
    · simp only [trackingRequestV1]
      rw [if_pos hlen]
    · simp only [trackingRequestV3]
      rw [if_pos hlen]
  · intro peer p rest hp
    have hlen : p.data.length = 0 := by rw [hp]; rfl
    simp only [trackingRequestV2]
    rw [if_pos hlen]
  · intro peer seq p h1 h2
    simp only [trackingRequestV3]
    rw [if_neg h1, if_pos h2]

/-- Witness for C8_read_errors at a concrete two-byte datagram. -/
theorem C8_witness :
    trackingRequestV3 0 0 (some ⟨0, [1, 2]⟩) = .error .shortRead :=
  C8_read_errors.2.2.2 0 0 ⟨0, [1, 2]⟩ (by decide) (by decide)

/-- Claim C6, counterexample: the first snapshot's receive path returns
hard errors instead of silently discarding — a datagram from a wrong
source address yields `wrongAddr` and a well-addressed datagram with a
non-matching decoded sequence number yields `wrongSeq` — while the
second snapshot's loop accepts a well-addressed datagram whose decoded
sequence number (0 here) cannot match any sent sequence, because it
performs no sequence check at all. -/
theorem C6_counterexample :
    trackingRequestV1 0 5 (some ⟨1, [2]⟩) = .error .wrongAddr ∧
    trackingRequestV1 0 5 (some ⟨0, [2]⟩) = .error .wrongSeq ∧
    trackingRequestV2 0 [⟨0, [2]⟩] = .ok (parseResponse (padBuffer [2])) ∧
    (parseResponse (padBuffer [2])).Sequence = 0 := by
  refine ⟨rfl, rfl, rfl, ?_⟩
  decide

/-- Claim C6, amended: within a query's wait, the second snapshot's
receive loop silently discards any datagram whose source address does
not match the peer and keeps waiting (re-arming the deadline), but it
performs no sequence-number check — it returns the first well-addressed
decodable datagram whatever its sequence field; the single-read
variants instead fail hard on a source-address mismatch and on a
sequence mismatch. -/
theorem C6_receive_mismatch :
    (∀ (peer : Nat) (pre : List packet) (p : packet) (rest : List packet),
        (∀ q ∈ pre, q.src ≠ peer ∧ q.data.length ≠ 0) →
        p.src = peer → p.data.length ≠ 0 →
        trackingRequestV2 peer (pre ++ p :: rest) = .ok (parseResponse (padBuffer p.data))) ∧
    (∀ (peer seq : Nat) (p : packet), p.src ≠ peer → p.data.length ≠ 0 →
        trackingRequestV1 peer seq (some p) = .error .wrongAddr) ∧
    (∀ (peer seq : Nat) (p : packet), p.src = peer → p.data.length ≠ 0 →
        (parseResponse (padBuffer p.data)).Sequence ≠ seq →
        trackingRequestV1 peer seq (some p) = .error .wrongSeq) := by
  refine ⟨?_, ?_, ?_⟩
  · intro peer pre
    induction pre with
    | nil =>
      intro p rest hpre hsrc hlen
      simp only [List.nil_append, trackingRequestV2]
      rw [if_neg hlen, if_neg (by simp [hsrc]),
        decode_padBuffer p.data responseBinarySizeEOR (by norm_num [responseBinarySizeEOR])]
    | cons q pre ih =>
      intro p rest hpre hsrc hlen
      obtain ⟨hq1, hq2⟩ := hpre q (List.mem_cons_self q pre)
      simp only [List.cons_append, trackingRequestV2]
      rw [if_neg hq2, if_pos hq1]
      exact ih p rest (fun y hy => hpre y (List.mem_cons_of_mem q hy)) hsrc hlen
  · intro peer seq p hsrc hlen
    simp only [trackingRequestV1]
    rw [if_neg hlen, if_pos hsrc]
  · intro peer seq p hsrc hlen hseq
    simp only [trackingRequestV1]
    rw [if_neg hlen, if_neg (by simp [hsrc]),
      decode_padBuffer p.data responseBinarySize (by norm_num [responseBinarySize])]
    show (if (parseResponse (padBuffer p.data)).Sequence ≠ seq then
        Except.error trErr.wrongSeq else Except.ok (parseResponse (padBuffer p.data))) =
      Except.error trErr.wrongSeq
    rw [if_pos hseq]

/-- Witness for C6_receive_mismatch: one wrong-source datagram is
skipped and the following well-addressed one is returned; the
single-read variant errors on a wrong source and on a sequence
mismatch. -/
theorem C6_witness :
    trackingRequestV2 0 [⟨1, [3]⟩, ⟨0, [2]⟩] = .ok (parseResponse (padBuffer [2])) ∧
    trackingRequestV1 0 5 (some ⟨1, [3]⟩) = .error .wrongAddr ∧
    trackingRequestV1 0 5 (some ⟨0, [3]⟩) = .error .wrongSeq :=
  ⟨C6_receive_mismatch.1 0 [⟨1, [3]⟩] ⟨0, [2]⟩ []
      (by intro q hq; simp only [List.mem_singleton] at hq; subst hq; exact ⟨by decide, by decide⟩)
      rfl (by decide),
    C6_receive_mismatch.2.1 0 5 ⟨1, [3]⟩ (by decide) (by decide),
    C6_receive_mismatch.2.2 0 5 ⟨0, [3]⟩ rfl (by decide) (by decide)⟩

/-- Truncation toward zero of a rational in [0, 1) is zero. -/
theorem truncQ_eq_zero (q : ℚ) (h0 : 0 ≤ q) (h1 : q < 1) : truncQ q = 0 := by
  rw [truncQ, if_pos h0]
  rw [Int.floor_eq_iff]
  constructor
  · exact_mod_cast h0
  · push_cast
    linarith

/-- Claim C2, counterexample: at the captured daemon reply, the first
snapshot's `uncertainty` (chronytime.go lines 133-140, one of the two
functions the claim covers) derives 0 nanoseconds — its seconds value
(which also adds |currentCorrection|, about 0.0083 s) is truncated to
whole seconds by `time.Duration(s) * time.Second` — while the claimed
formula `rootDispersion + 0.5*rootDelay` is about 7865143.6 ns, far
outside nanosecond rounding. -/
theorem C2_counterexample :
    uncertainty testTracking = 0 ∧
    (7865143 : ℚ) ≤ claimEpsNs testTracking ∧ claimEpsNs testTracking ≤ 7865144 := by
  refine ⟨?_, ?_, ?_⟩
  · simp only [uncertainty, testTracking]
    rw [value_currentCorrection, value_rootDispersion, value_rootDelay]
    rw [if_neg (by norm_num)]
    rw [truncQ_eq_zero _ (by norm_num) (by norm_num)]
    norm_num
  · simp only [claimEpsNs, testTracking]
    rw [value_rootDispersion, value_rootDelay]
    norm_num
  · simp only [claimEpsNs, testTracking]
    rw [value_rootDispersion, value_rootDelay]
    norm_num

/-- Claim C2, amended: the context-based snapshot's
`uncertaintyFromCorrectedTime` derives epsilon from
`rootDispersion + 0.5 * rootDelay` with the current-correction field
excluded, truncated to whole nanoseconds — non-negative and within one
nanosecond below the exact formula whenever the two decoded fields are
non-negative; the first snapshot's `uncertainty` instead also adds
|currentCorrection| and truncates the seconds value to whole seconds. -/
theorem C2_uncertainty_excludes_correction :
    ∀ r : trackingResponse, 0 ≤ r.RootDelay.value → 0 ≤ r.RootDispersion.value →
      0 ≤ uncertaintyFromCorrectedTime r ∧
      claimEpsNs r - 1 < ((uncertaintyFromCorrectedTime r : Int) : ℚ) ∧
      ((uncertaintyFromCorrectedTime r : Int) : ℚ) ≤ claimEpsNs r := by
  intro r hdelay hdisp
  have hs : (0 : ℚ) ≤ (r.RootDispersion.value + 1 / 2 * r.RootDelay.value) * 1000000000 := by
    have : (0 : ℚ) ≤ r.RootDispersion.value + 1 / 2 * r.RootDelay.value := by linarith
    positivity
  have heq : uncertaintyFromCorrectedTime r =
      ⌊(r.RootDispersion.value + 1 / 2 * r.RootDelay.value) * 1000000000⌋ := by
    simp only [uncertaintyFromCorrectedTime, truncQ]
    rw [if_pos hs]
  refine ⟨?_, ?_, ?_⟩
  · rw [heq]
    exact Int.floor_nonneg.mpr hs
  · rw [heq, claimEpsNs]
    exact Int.sub_one_lt_floor _
  · rw [heq, claimEpsNs]
    exact Int.floor_le _

/-- Witness for C2_uncertainty_excludes_correction at the captured
daemon reply. -/
theorem C2_witness :
    0 ≤ uncertaintyFromCorrectedTime testTracking ∧
    claimEpsNs testTracking - 1 < ((uncertaintyFromCorrectedTime testTracking : Int) : ℚ) ∧
    ((uncertaintyFromCorrectedTime testTracking : Int) : ℚ) ≤ claimEpsNs testTracking :=
  C2_uncertainty_excludes_correction testTracking
    (by simp only [testTracking]; rw [value_rootDelay]; norm_num)
    (by simp only [testTracking]; rw [value_rootDispersion]; norm_num)

/-- Claim C3: the compact-float decode returns the sign-extended low 25
bits times 2 to the (sign-extended top 7 bits minus 25), and on the
protocol test vectors it lands within tight error of the documented
values: word -320148152 within 1e-9 of 0.000448087, word 182955620
within 1e-3 of 14.480, and word 411118241 within 1e-1 of 1033.3. -/
theorem C3_cfloat_decode :
    (∀ f : cfloat, f.value = compactFloatSpec f.F) ∧
    (448086 / 10 ^ 9 < cfloat.value ⟨-320148152⟩ ∧
      cfloat.value ⟨-320148152⟩ < 448088 / 10 ^ 9) ∧
    (14479 / 1000 < cfloat.value ⟨182955620⟩ ∧
      cfloat.value ⟨182955620⟩ < 14481 / 1000) ∧
    (10332 / 10 < cfloat.value ⟨411118241⟩ ∧
      cfloat.value ⟨411118241⟩ < 10334 / 10) := by
  refine ⟨?_, ⟨?_, ?_⟩, ⟨?_, ?_⟩, ⟨?_, ?_⟩⟩
  · intro f
    rfl
  · rw [value_currentCorrection]; norm_num
  · rw [value_currentCorrection]; norm_num
  · rw [value_freqPPM]; norm_num
  · rw [value_freqPPM]; norm_num
  · rw [value_lastUpdateInterval]; norm_num
  · rw [value_lastUpdateInterval]; norm_num

/-- Claim C9: if the cancellation signal fires while the context-based
WaitUntilAfter is waiting — any number of earlier iterations having
read a not-yet-past reading and continued on the timer — the loop
returns the distinct `context.Canceled` error immediately and the total
number of queries issued is exactly the iterations so far: none are
issued after cancellation, whatever `rest` would have supplied. -/
theorem C9_cancellation :
    (∀ (t : Int) (pre : List (Except trErr reading × selectOutcome)) (r : reading)
        (rest : List (Except trErr reading × selectOutcome)),
        (∀ x ∈ pre, ∃ q, x = (Except.ok q, selectOutcome.timer) ∧ q.earliest ≤ t) →
        r.earliest ≤ t →
        waitUntilAfterCtx t (pre ++ (Except.ok r, selectOutcome.cancel) :: rest) =
          (some (.error .canceled), pre.length + 1)) ∧
    (∀ e : trErr, wErr.canceled ≠ wErr.transport e) := by
  constructor
  · intro t pre
    induction pre with
    | nil =>
      intro r rest hpre hr
      simp only [List.nil_append, waitUntilAfterCtx]
      rw [if_neg (not_lt.mpr hr)]
      rfl
    | cons x pre ih =>
      intro r rest hpre hr
      obtain ⟨q, hx, hq⟩ := hpre x (List.mem_cons_self x pre)
      subst hx
      simp only [List.cons_append, waitUntilAfterCtx]
      rw [if_neg (not_lt.mpr hq)]
      simp only [List.append_eq]
      rw [ih r rest (fun y hy => hpre y (List.mem_cons_of_mem _ hy)) hr]
      simp [List.length_cons]
  · intro e h
    cases h

/-- Witness for C9_cancellation: one continue iteration, then a fired
cancellation; the entry behind it in the schedule is never consumed. -/
theorem C9_witness :
    waitUntilAfterCtx 0 [(Except.ok ⟨0, 5⟩, selectOutcome.timer),
        (Except.ok ⟨0, 3⟩, selectOutcome.cancel),
        (Except.ok ⟨100, 0⟩, selectOutcome.timer)] =
      (some (.error .canceled), 2) :=
  C9_cancellation.1 0 [(Except.ok ⟨0, 5⟩, selectOutcome.timer)] ⟨0, 3⟩
    [(Except.ok ⟨100, 0⟩, selectOutcome.timer)]
    (by
      intro x hx
      simp only [List.mem_singleton] at hx
      subst hx
      exact ⟨⟨0, 5⟩, rfl, by decide⟩)
    (by decide)

/-- An empty iteration trace means the supplied query outcomes ran out
before the loop exited. -/
theorem waitUntilAfter_trace_nil (t : Int) (qs : List (Except trErr reading)) :
    (waitUntilAfter t qs).2 = [] → (waitUntilAfter t qs).1 = none := by
  cases qs with
  | nil => intro _; rfl
  | cons q rest =>
    cases q with
    | error e => simp [waitUntilAfter]
    | ok r =>
      by_cases h : t < r.earliest
      · simp [waitUntilAfter, h]
      · simp [waitUntilAfter, h]

/-- Claim C1: the WaitUntilAfter loop (a) returns successfully only
when the most recent reading it obtained has Earliest() strictly after
the target — the last trace entry is a reading with `t < earliest` and
no sleep; (b) in every iteration whose reading has Earliest() not after
the target, the recorded sleep is exactly `target - Earliest()`, and
the only way no further query follows is that the supplied outcomes ran
out before the loop exited; and (c) each iteration consumes the next
fresh query outcome in order — the trace's queries are an initial
segment of the oracle, never a reuse or extrapolation. -/
theorem C1_waitUntilAfter_loop :
    ∀ (t : Int) (qs : List (Except trErr reading)),
      ((waitUntilAfter t qs).1 = some (.ok ()) →
        ∃ r, (waitUntilAfter t qs).2.getLast? = some (Except.ok r, none) ∧ t < r.earliest) ∧
      (∀ (i : Nat) (r : reading) (s : Option Int),
        (waitUntilAfter t qs).2[i]? = some (Except.ok r, s) → r.earliest ≤ t →
        s = some (t - r.earliest) ∧
        ((waitUntilAfter t qs).2[i + 1]? = none → (waitUntilAfter t qs).1 = none)) ∧
      ((waitUntilAfter t qs).2.map Prod.fst = qs.take (waitUntilAfter t qs).2.length) := by
  intro t qs
  induction qs with
  | nil =>
    refine ⟨?_, ?_, ?_⟩
    · intro h
      simp [waitUntilAfter] at h
    · intro i r s h
      simp [waitUntilAfter] at h
    · simp [waitUntilAfter]
  | cons q rest ih =>
    cases q with
    | error e =>
      refine ⟨?_, ?_, ?_⟩
      · intro h
        simp [waitUntilAfter] at h
      · intro i r s h hle
        cases i with
        | zero => simp [waitUntilAfter] at h
        | succ j => simp [waitUntilAfter] at h
      · simp [waitUntilAfter]
    | ok r0 =>
      by_cases hlt : t < r0.earliest
      · refine ⟨?_, ?_, ?_⟩
        · intro _
          exact ⟨r0, by simp [waitUntilAfter, hlt], hlt⟩
        · intro i r s h hle
          cases i with
          | zero =>
            simp only [waitUntilAfter, if_pos hlt, List.getElem?_cons_zero] at h
            injection h with h
            injection h with h1 h2
            injection h1 with h1
            subst h1
            exact absurd hlt (not_lt.mpr hle)
          | succ j => simp [waitUntilAfter, hlt] at h
        · simp [waitUntilAfter, hlt]
      · refine ⟨?_, ?_, ?_⟩
        · intro h
          simp only [waitUntilAfter, if_neg hlt] at h ⊢
          obtain ⟨r2, hlast, hr2⟩ := ih.1 h
          refine ⟨r2, ?_, hr2⟩
          have hne : (waitUntilAfter t rest).2 ≠ [] := by
            intro hnil
            rw [waitUntilAfter_trace_nil t rest hnil] at h
            exact Option.noConfusion h
          obtain ⟨y, l, hyl⟩ := List.exists_cons_of_ne_nil hne
          rw [hyl] at hlast
          rw [hyl, List.getLast?_cons_cons]
          exact hlast
        · intro i r s h hle
          simp only [waitUntilAfter, if_neg hlt] at h ⊢
          cases i with
          | zero =>
            rw [List.getElem?_cons_zero] at h
            injection h with h
            injection h with h1 h2
            injection h1 with h1
            subst h1
            refine ⟨h2.symm, ?_⟩
            intro hnone
            rw [List.getElem?_cons_succ] at hnone
            have hnil : (waitUntilAfter t rest).2 = [] := by
              cases hh : (waitUntilAfter t rest).2 with
              | nil => rfl
              | cons a l =>
                rw [hh] at hnone
                simp at hnone
            exact waitUntilAfter_trace_nil t rest hnil
          | succ j =>
            rw [List.getElem?_cons_succ] at h
            have hj := ih.2.1 j r s h hle
            refine ⟨hj.1, ?_⟩
            intro hnone
            rw [List.getElem?_cons_succ] at hnone
            exact hj.2 hnone
        · simp only [waitUntilAfter, if_neg hlt, List.map_cons, List.length_cons]
          rw [List.take_succ_cons, ih.2.2]

/-- Witness for C1_waitUntilAfter_loop: with target 0, a first reading
whose earliest instant is -5 records a sleep of exactly 5, and a query
follows it in the trace. -/
theorem C1_witness :
    some (5 : Int) = some (0 - (reading.mk 0 5).earliest) ∧
    ((waitUntilAfter 0 [Except.ok (reading.mk 0 5), Except.ok (reading.mk 10 1)]).2[0 + 1]? =
        none →
      (waitUntilAfter 0 [Except.ok (reading.mk 0 5), Except.ok (reading.mk 10 1)]).1 = none) :=
  (C1_waitUntilAfter_loop 0 [Except.ok (reading.mk 0 5), Except.ok (reading.mk 10 1)]).2.1 0
    (reading.mk 0 5) (some 5) rfl (by decide)

/-- Witness for C5_prepare_failure at a concrete failing prepare. -/
theorem C5_witness :
    consistentOperation (some 3) 9 none none = ((0, some 3), (false, false)) ∧
    consistentOperationConc (some 3) 9 none none = ((0, some 3), (false, false, false)) :=
  C5_prepare_failure 9 3 none none

/-- Witness for C4_commit_failure at a concrete failing commit. -/
theorem C4_witness :
    consistentOperation none 9 (some 3) none = ((0, some 3), (true, false)) ∧
    consistentOperationConc none 9 (some 3) none = ((0, some 3), (true, true, false)) :=
  C4_commit_failure 9 3 none

/-- Witness for C10_wait_error_discarded with a concrete failing wait. -/
theorem C10_witness :
    consistentOperation none 9 none (some 3) = ((9, none), (true, true)) ∧
    consistentOperationConc none 9 none (some 3) = ((9, none), (true, true, true)) :=
  C10_wait_error_discarded 9 (some 3)

/-- Witness for C7_request_length at a concrete sequence number. -/
theorem C7_witness : (encodeRequest 2719312210).length = 509 :=
  C7_request_length 2719312210

/-- Witness for C3_cfloat_decode at the captured current-correction
word. -/
theorem C3_witness :
    cfloat.value ⟨-320148152⟩ = compactFloatSpec (-320148152) :=
  C3_cfloat_decode.1 ⟨-320148152⟩
